import Mathlib

/-!
Shallow embedding of the DigSignature device-synchronization core
(Django server, apps `scheduling`, `playlists`, `players`, `content`).

Python dicts are modelled as association lists inside a `Json` value type;
`json.dumps(obj, sort_keys=True)` is modelled by `Json.dumps`, which sorts
each object's keys and uses Python's default separators and
`ensure_ascii=True` escaping.  SHA-256 is implemented over `Nat` with
explicit reductions modulo `2 ^ 32`.
-/

/-- Python lexicographic string order on code points (`s1 <= s2`). -/
def charListLe (xs ys : List Char) : Bool :=
  match xs, ys with
  | [], _ => true
  | _, [] => false
  | c :: cs, d :: ds =>
    if c.toNat < d.toNat then true
    else if d.toNat < c.toNat then false
    else charListLe cs ds

def strLe (s t : String) : Bool := charListLe s.data t.data

/-- Insert into a sorted list: stable insertion used to model both Django
`order_by` and Python `sorted`. -/
def insertLe {α : Type} (le : α → α → Bool) (a : α) : List α → List α
  | [] => [a]
  | b :: bs => if le a b then a :: b :: bs else b :: insertLe le a bs

/-- Stable insertion sort, modelling Django `order_by` / Python `sorted`. -/
def isort {α : Type} (le : α → α → Bool) : List α → List α
  | [] => []
  | a :: as => insertLe le a (isort le as)

/-! ## JSON values and Python `json.dumps(obj, sort_keys=True)` -/

inductive Json where
  | null : Json
  | bool (b : Bool) : Json
  | num (n : Int) : Json
  | str (s : String) : Json
  | arr (xs : List Json) : Json
  | obj (kvs : List (String × Json)) : Json

/-- Four lowercase hex digits, as in Python's `\uXXXX` escapes. -/
def hexDigits : List Char := "0123456789abcdef".data

def hexChar (n : Nat) : Char := hexDigits.getD (n % 16) '0'

def hex4 (n : Nat) : String :=
  String.mk [hexChar (n / 4096), hexChar (n / 256), hexChar (n / 16), hexChar n]

/-- Python `json` string escaping with `ensure_ascii=True`: escape `"` , `\` ,
control characters and everything outside `0x20`–`0x7e`. -/
def escapeChar (c : Char) : String :=
  if c = '"' then "\\\""
  else if c = '\\' then "\\\\"
  else if c = '\n' then "\\n"
  else if c = '\r' then "\\r"
  else if c = '\t' then "\\t"
  else if c.toNat = 8 then "\\b"
  else if c.toNat = 12 then "\\f"
  else if c.toNat < 32 then "\\u" ++ hex4 c.toNat
  else if c.toNat ≤ 126 then String.singleton c
  else if c.toNat < 65536 then "\\u" ++ hex4 c.toNat
  else
    "\\u" ++ hex4 (55296 + (c.toNat - 65536) / 1024) ++
    "\\u" ++ hex4 (56320 + (c.toNat - 65536) % 1024)

def escapeString (s : String) : String :=
  (s.data.map escapeChar).foldl (· ++ ·) ""

/-- A JSON string literal, `"` + escaped body + `"`. -/
def jstr (s : String) : String := "\"" ++ escapeString s ++ "\""

/-! Python `json.dumps(v, sort_keys=True)` is modelled in two structural
passes: `canonJson` sorts every object's keys (the canonical ordering the
spec calls "deterministic key ordering"), and `dumpJson` prints with
Python's default separators `", "` and `": "`. -/

mutual

/-- Canonical form of a JSON value under `sort_keys=True`: every object's
pairs are sorted by key, recursively. -/
def canonJson : Json → Json
  | .null => .null
  | .bool b => .bool b
  | .num n => .num n
  | .str s => .str s
  | .arr xs => .arr (canonList xs)
  | .obj kvs => .obj (canonPairs kvs)

def canonList : List Json → List Json
  | [] => []
  | x :: xs => canonJson x :: canonList xs

def canonPairs : List (String × Json) → List (String × Json)
  | [] => []
  | (k, v) :: ps => insertLe (fun p q => strLe p.1 q.1) (k, canonJson v) (canonPairs ps)

end

mutual

def dumpJson : Json → String
  | .null => "null"
  | .bool true => "true"
  | .bool false => "false"
  | .num n => toString n
  | .str s => jstr s
  | .arr xs => "[" ++ String.intercalate ", " (dumpList xs) ++ "]"
  | .obj kvs => "\x7b" ++ String.intercalate ", " (dumpPairs kvs) ++ "\x7d"

def dumpList : List Json → List String
  | [] => []
  | x :: xs => dumpJson x :: dumpList xs

def dumpPairs : List (String × Json) → List String
  | [] => []
  | (k, v) :: ps => (jstr k ++ ": " ++ dumpJson v) :: dumpPairs ps

end

/-- Python `json.dumps(v, sort_keys=True)`: sorted object keys, default
separators, `ensure_ascii` escaping. -/
def Json.dumps (j : Json) : String := dumpJson (canonJson j)

/-! ## UTF-8 encoding (Python `str.encode()`) -/

/-- UTF-8 bytes of one code point. -/
def utf8EncodeChar (c : Char) : List Nat :=
  let v := c.toNat
  if v < 128 then [v]
  else if v < 2048 then [192 + v / 64, 128 + v % 64]
  else if v < 65536 then [224 + v / 4096, 128 + (v / 64) % 64, 128 + v % 64]
  else [240 + v / 262144, 128 + (v / 4096) % 64, 128 + (v / 64) % 64, 128 + v % 64]

def utf8Encode (s : String) : List Nat := (s.data.map utf8EncodeChar).flatten

/-! ## SHA-256 over `Nat` (bytes are `Nat < 256`, words are `Nat < 2 ^ 32`) -/

def w32 : Nat := 4294967296

def rotr32 (n x : Nat) : Nat := x / 2 ^ n + x % 2 ^ n * 2 ^ (32 - n)

def shr32 (n x : Nat) : Nat := x / 2 ^ n

def smallSigma0 (x : Nat) : Nat := (rotr32 7 x) ^^^ (rotr32 18 x) ^^^ (shr32 3 x)

def smallSigma1 (x : Nat) : Nat := (rotr32 17 x) ^^^ (rotr32 19 x) ^^^ (shr32 10 x)

def bigSigma0 (x : Nat) : Nat := (rotr32 2 x) ^^^ (rotr32 13 x) ^^^ (rotr32 22 x)

def bigSigma1 (x : Nat) : Nat := (rotr32 6 x) ^^^ (rotr32 11 x) ^^^ (rotr32 25 x)

def chFn (x y z : Nat) : Nat := (x &&& y) ^^^ ((4294967295 - x) &&& z)

def majFn (x y z : Nat) : Nat := (x &&& y) ^^^ (x &&& z) ^^^ (y &&& z)

def sha256K : List Nat :=
  [1116352408, 1899447441, 3049323471, 3921009573, 961987163, 1508970993,
   2453635748, 2870763221, 3624381080, 310598401, 607225278, 1426881987,
   1925078388, 2162078206, 2614888103, 3248222580, 3835390401, 4022224774,
   264347078, 604807628, 770255983, 1249150122, 1555081692, 1996064986,
   2554220882, 2821834349, 2952996808, 3210313671, 3336571891, 3584528711,
   113926993, 338241895, 666307205, 773529912, 1294757372, 1396182291,
   1695183700, 1986661051, 2177026350, 2456956037, 2730485921, 2820302411,
   3259730800, 3345764771, 3516065817, 3600352804, 4094571909, 275423344,
   430227734, 506948616, 659060556, 883997877, 958139571, 1322822218,
   1537002063, 1747873779, 1955562222, 2024104815, 2227730452, 2361852424,
   2428436474, 2756734187, 3204031479, 3329325298]

structure Hash8 where
  a : Nat
  b : Nat
  c : Nat
  d : Nat
  e : Nat
  f : Nat
  g : Nat
  h : Nat

def sha256Init : Hash8 :=
  ⟨1779033703, 3144134277, 1013904242, 2773480762,
   1359893119, 2600822924, 528734635, 1541459225⟩

/-- SHA-256 message padding: `0x80`, zeros, then the 64-bit big-endian bit
length, to a multiple of 64 bytes. -/
def sha256Pad (msg : List Nat) : List Nat :=
  let l := msg.length
  let zeros := (64 - (l + 9) % 64) % 64
  let bits := 8 * l
  msg ++ [128] ++ List.replicate zeros 0 ++
    [bits / 2 ^ 56 % 256, bits / 2 ^ 48 % 256, bits / 2 ^ 40 % 256,
     bits / 2 ^ 32 % 256, bits / 2 ^ 24 % 256, bits / 2 ^ 16 % 256,
     bits / 2 ^ 8 % 256, bits % 256]

/-- Group bytes into big-endian 32-bit words. -/
def bytesToWords : List Nat → List Nat
  | b0 :: b1 :: b2 :: b3 :: rest =>
    (((b0 * 256 + b1) * 256 + b2) * 256 + b3) :: bytesToWords rest
  | _ => []

/-- Split a word list into 16-word blocks (the padded input is always a
multiple of 16 words). -/
def toBlocks : List Nat → List (List Nat)
  | w0 :: w1 :: w2 :: w3 :: w4 :: w5 :: w6 :: w7 ::
    w8 :: w9 :: w10 :: w11 :: w12 :: w13 :: w14 :: w15 :: rest =>
    [w0, w1, w2, w3, w4, w5, w6, w7, w8, w9, w10, w11, w12, w13, w14, w15] ::
      toBlocks rest
  | _ => []

/-- Extend the 16 block words to 64 schedule words.  The accumulator holds the
schedule in reverse (most recent first). -/
def extendSchedule : Nat → List Nat → List Nat
  | 0, acc => acc
  | n + 1, acc =>
    let wt := (smallSigma1 (acc.getD 1 0) + acc.getD 6 0 +
               smallSigma0 (acc.getD 14 0) + acc.getD 15 0) % w32
    extendSchedule n (wt :: acc)

def messageSchedule (block : List Nat) : List Nat :=
  (extendSchedule 48 block.reverse).reverse

/-- One SHA-256 compression round; `kw` is `(K_t, W_t)`. -/
def sha256Round (s : Hash8) (kw : Nat × Nat) : Hash8 :=
  let t1 := (s.h + bigSigma1 s.e + chFn s.e s.f s.g + kw.1 + kw.2) % w32
  let t2 := (bigSigma0 s.a + majFn s.a s.b s.c) % w32
  ⟨(t1 + t2) % w32, s.a, s.b, s.c, (s.d + t1) % w32, s.e, s.f, s.g⟩

def sha256Compress (hv : Hash8) (block : List Nat) : Hash8 :=
  let s := (List.zip sha256K (messageSchedule block)).foldl sha256Round hv
  ⟨(hv.a + s.a) % w32, (hv.b + s.b) % w32, (hv.c + s.c) % w32,
   (hv.d + s.d) % w32, (hv.e + s.e) % w32, (hv.f + s.f) % w32,
   (hv.g + s.g) % w32, (hv.h + s.h) % w32⟩

def sha256Words (msg : List Nat) : Hash8 :=
  (toBlocks (bytesToWords (sha256Pad msg))).foldl sha256Compress sha256Init

def wordBytesBE (w : Nat) : List Nat :=
  [w / 16777216 % 256, w / 65536 % 256, w / 256 % 256, w % 256]

def sha256Bytes (msg : List Nat) : List Nat :=
  let hv := sha256Words msg
  wordBytesBE hv.a ++ wordBytesBE hv.b ++ wordBytesBE hv.c ++ wordBytesBE hv.d ++
  wordBytesBE hv.e ++ wordBytesBE hv.f ++ wordBytesBE hv.g ++ wordBytesBE hv.h

def byteHex (b : Nat) : List Char := [hexChar (b / 16), hexChar (b % 16)]

/-- Python `hashlib.sha256(msg).hexdigest()`: 64 lowercase hex characters. -/
def sha256Hexdigest (msg : List Nat) : String :=
  String.mk ((sha256Bytes msg).map byteHex).flatten

namespace DigSignature

/-! ## Data model

Records translated from the Django models.  Nullable columns are `Option`;
`CharField(blank=True)` columns are `String` (empty string when unset).
`DateTimeField` values are abstracted to an ordered instant `ts` plus the
`isoformat()` string the code prints; `TimeField` values are seconds since
midnight; `DateField` values are an ordered day number. -/

structure DateTime where
  ts : Int
  iso : String

/-- The value of `timezone.now()` during one request, abstracted to the
projections the code applies to it. -/
structure Now where
  date : Int
  isoweekday : Nat
  time : Nat
  ts : Int
  iso : String
  ymdhms : String

def Now.toDateTime (n : Now) : DateTime := ⟨n.ts, n.iso⟩

/-- Python `a or b` on strings (empty string is falsy). -/
def pyOrStr (a b : String) : String := if a == "" then b else a

/-- `content.models.Asset` (the fields the sync core reads). -/
structure Asset where
  id : Nat
  name : String
  original_name : String
  asset_type : String
  checksum : String
  updated_at : String
  duration : Option Nat
  file_size : Option Nat
  resolution : String
  metadata : List (String × Json)
  file : Bool
  url : String
  thumbnail : Option String

def Asset.is_video (a : Asset) : Bool := a.asset_type == "video"

def Asset.download_url (a : Asset) : String :=
  "/content/assets/" ++ toString a.id ++ "/download/"

/-- `playlists.models.PlaylistItem`. -/
structure PlaylistItem where
  id : Nat
  asset : Asset
  duration : Nat
  zone : String
  order : Nat
  fullscreen : Bool
  transition_effect : String
  asset_ticker : String
  valid_from : Option DateTime
  valid_until : Option DateTime

/-- `PlaylistItem.effective_duration`:
`if self.asset.is_video() and self.asset.duration: return self.asset.duration`
(`None` and `0` are falsy) `return self.duration`. -/
def PlaylistItem.effective_duration (it : PlaylistItem) : Nat :=
  match it.asset.duration with
  | some d => if it.asset.is_video && d != 0 then d else it.duration
  | none => it.duration

/-- `playlists.models.Playlist` (layout is abstracted to `layout.code`,
the only layout field the sync core reads). -/
structure Playlist where
  id : Nat
  name : String
  layout_code : String
  updated_at : String
  ticker_enabled : Bool
  ticker_text : String
  ticker_speed : Nat
  ticker_position : String
  shuffle_enabled : Bool
  repeat_enabled : Bool
  items : List PlaylistItem

/-- `playlists.models.PlaylistSchedule`.  The owning group is implicit: a
group's schedules are held in the group record below, which models the Django
queryset filter `group=group`. -/
structure PlaylistSchedule where
  id : Nat
  playlist : Playlist
  start_time : Option Nat
  end_time : Option Nat
  days_of_week : List Nat
  start_date : Option Int
  end_date : Option Int
  priority : Nat
  is_active : Bool

/-- `players.models.Group`; `schedules` is the reverse relation
`group.playlist_schedules`. -/
structure Group where
  id : Nat
  name : String
  default_playlist : Option Playlist
  sync_interval : Nat
  resolution : String
  orientation : String
  audio_enabled : Bool
  tv_control : Bool
  screenshot_interval : Nat
  default_timezone : String
  schedules : List PlaylistSchedule

/-- `players.models.Player`. -/
structure Player where
  id : Nat
  device_id : String
  name : String
  group : Group
  status : String
  last_sync : Option DateTime
  last_sync_hash : String
  sync_fail_count : Nat
  app_version : String
  firmware_version : String
  battery_level : Option Nat
  storage_free_mb : Option Nat
  temperature_celsius : Option Int
  connection_type : String
  signal_strength : Option Int
  custom_resolution : String
  custom_orientation : String
  timezone : String
  location : String

/-- `Player.effective_resolution`: `self.custom_resolution or self.group.resolution`. -/
def Player.effective_resolution (p : Player) : String :=
  pyOrStr p.custom_resolution p.group.resolution

/-- `Player.effective_orientation`: `self.custom_orientation or self.group.orientation`. -/
def Player.effective_orientation (p : Player) : String :=
  pyOrStr p.custom_orientation p.group.orientation

/-! ## Schedule resolver (`playlists/models.py` lines 258-301) -/

/-- `PlaylistSchedule.is_active_now`, line for line:
inactive flag, null times, date range, weekday set, then the time-of-day
window (same-day or midnight-crossing). -/
def PlaylistSchedule.is_active_now (s : PlaylistSchedule) (now : Now) : Bool :=
  if !s.is_active then false
  else if s.start_time.isNone || s.end_time.isNone then false
  else if (match s.start_date with | some d => decide (now.date < d) | none => false) then false
  else if (match s.end_date with | some d => decide (now.date > d) | none => false) then false
  else if !s.days_of_week.isEmpty && !(s.days_of_week.contains now.isoweekday) then false
  else
    let st := s.start_time.getD 0
    let et := s.end_time.getD 0
    if st ≤ et then decide (st ≤ now.time) && decide (now.time ≤ et)
    else decide (now.time ≥ st) || decide (now.time ≤ et)

/-- Django `order_by('-priority', '-id')` as a boolean order:
higher priority first, then higher id. -/
def schedLe (s t : PlaylistSchedule) : Bool :=
  if s.priority == t.priority then decide (t.id ≤ s.id)
  else decide (t.priority < s.priority)

def orderSchedules (l : List PlaylistSchedule) : List PlaylistSchedule :=
  isort schedLe l

/-- The `for schedule in active_schedules: if schedule.is_active_now(): return
schedule.playlist` loop. -/
def scanSchedules (now : Now) : List PlaylistSchedule → Option Playlist
  | [] => none
  | s :: rest =>
    if s.is_active_now now then some s.playlist else scanSchedules now rest

/-- `PlaylistSchedule.get_active_playlist_for_group`: scan the group's active
schedules ordered by `(-priority, -id)`; fall back to `group.default_playlist`. -/
def get_active_playlist_for_group (g : Group) (now : Now) : Option Playlist :=
  match scanSchedules now (orderSchedules (g.schedules.filter (·.is_active))) with
  | some p => some p
  | none => g.default_playlist

/-! ## Sync hash engine (`scheduling/admin.py` lines 129-182) -/

/-- Django `order_by('zone', 'order')` on playlist items. -/
def itemLe (i j : PlaylistItem) : Bool :=
  if i.zone == j.zone then decide (i.order ≤ j.order) else strLe i.zone j.zone

/-- One entry of the `sync_data['assets']` list (lines 166-176). -/
def assetSummary (it : PlaylistItem) : Json :=
  .obj [("id", .num (it.asset.id : Int)),
        ("name", .str it.asset.name),
        ("checksum", .str (pyOrStr it.asset.checksum "")),
        ("updated_at", .str it.asset.updated_at),
        ("duration", .num (it.effective_duration : Int)),
        ("zone", .str it.zone),
        ("order", .num (it.order : Int))]

/-- The `sync_data['playlist']` value (lines 150, 156-163). -/
def playlistSummary : Option Playlist → Json
  | none => .null
  | some pl =>
    .obj [("id", .num (pl.id : Int)),
          ("name", .str pl.name),
          ("layout", .str pl.layout_code),
          ("updated_at", .str pl.updated_at),
          ("ticker_enabled", .bool pl.ticker_enabled),
          ("ticker_text", .str pl.ticker_text)]

/-- The `sync_data` dict built by `calculate_player_sync_hash` (lines 134-176),
including the redundant second fallback to `group.default_playlist`. -/
def syncHashJson (p : Player) (now : Now) : Json :=
  let group := p.group
  let active :=
    match get_active_playlist_for_group group now with
    | none => group.default_playlist
    | some pl => some pl
  .obj [("player_id", .str p.device_id),
        ("group_config",
          .obj [("sync_interval", .num (group.sync_interval : Int)),
                ("resolution", .str p.effective_resolution),
                ("orientation", .str p.effective_orientation),
                ("audio_enabled", .bool group.audio_enabled),
                ("tv_control", .bool group.tv_control)]),
        ("playlist", playlistSummary active),
        ("assets", .arr (match active with
          | none => []
          | some pl => (isort itemLe pl.items).map assetSummary))]

/-- `calculate_player_sync_hash`: SHA-256 of the sorted-keys JSON dump of
`sync_data`, truncated to the first 8 characters (`full_hash[:8]`). -/
def calculate_player_sync_hash (p : Player) (now : Now) : String :=
  let full_hash := sha256Hexdigest (utf8Encode (Json.dumps (syncHashJson p now)))
  String.mk (full_hash.data.take 8)

/-! ## Specification-side schedule resolver (spec section 4.1)

These definitions restate the specification's words, to be compared with the
code-derived definitions above. -/

/-- The four per-schedule checks of spec section 4.1 / claim C2: date range,
weekday set, presence of both times, and the time-of-day window
(`start_time <= end_time` means `start_time <= now.time <= end_time`,
otherwise `now.time >= start_time` or `now.time <= end_time`). -/
def specSchedulePasses (s : PlaylistSchedule) (now : Now) : Bool :=
  (match s.start_date with | some d => decide (d ≤ now.date) | none => true) &&
  (match s.end_date with | some d => decide (now.date ≤ d) | none => true) &&
  (s.days_of_week.isEmpty || s.days_of_week.contains now.isoweekday) &&
  (match s.start_time, s.end_time with
   | some st, some et =>
     if st ≤ et then decide (st ≤ now.time) && decide (now.time ≤ et)
     else decide (now.time ≥ st) || decide (now.time ≤ et)
   | _, _ => false)

/-- Spec section 4.1 contract `resolve_active_playlist(group, now)`: the first
schedule, among the group's `is_active` schedules ordered by
`(priority DESC, id DESC)`, that passes all four checks; otherwise the group's
default playlist. -/
def resolve_active_playlist (g : Group) (now : Now) : Option Playlist :=
  match (orderSchedules (g.schedules.filter (·.is_active))).find?
      (fun s => specSchedulePasses s now) with
  | some s => some s.playlist
  | none => g.default_playlist

/-! ## Specification-side sync hash (spec section 4.2)

The digest structure restated from the spec's words, with every object's
keys already listed in the canonical (sorted) order that serialization must
produce. -/

/-- Spec: `group_display_config = (sync_interval, effective resolution,
effective orientation, audio flag, tv_control)`, device overrides winning. -/
def group_display_config (p : Player) : Json :=
  .obj [("audio_enabled", .bool p.group.audio_enabled),
        ("orientation", .str p.effective_orientation),
        ("resolution", .str p.effective_resolution),
        ("sync_interval", .num (p.group.sync_interval : Int)),
        ("tv_control", .bool p.group.tv_control)]

/-- Spec: `playlist_summary` (only if an active playlist resolved) =
`(id, name, layout_code, updated_at, ticker_enabled, ticker_text)`. -/
def playlist_summary : Option Playlist → Json
  | none => .null
  | some pl =>
    .obj [("id", .num (pl.id : Int)),
          ("layout", .str pl.layout_code),
          ("name", .str pl.name),
          ("ticker_enabled", .bool pl.ticker_enabled),
          ("ticker_text", .str pl.ticker_text),
          ("updated_at", .str pl.updated_at)]

/-- Spec / C1: one summary per `PlaylistItem`: `(asset_id, asset_name,
asset_checksum_or_empty, asset.updated_at, effective_duration, zone, order)`. -/
def spec_asset_summary (it : PlaylistItem) : Json :=
  .obj [("checksum", .str (pyOrStr it.asset.checksum "")),
        ("duration", .num (it.effective_duration : Int)),
        ("id", .num (it.asset.id : Int)),
        ("name", .str it.asset.name),
        ("order", .num (it.order : Int)),
        ("updated_at", .str it.asset.updated_at),
        ("zone", .str it.zone)]

/-- Spec: `ordered_asset_summaries` = the active playlist's items ordered by
`(zone, order)`, summarized. -/
def ordered_asset_summaries : Option Playlist → List Json
  | none => []
  | some pl => (isort itemLe pl.items).map spec_asset_summary

/-- Spec / C1: the canonical structure
`(device identity, group display config, playlist summary or null,
ordered asset summaries)` for the resolved active playlist. -/
def spec_sync_structure (p : Player) (now : Now) : Json :=
  .obj [("assets", .arr (ordered_asset_summaries (resolve_active_playlist p.group now))),
        ("group_config", group_display_config p),
        ("player_id", .str p.device_id),
        ("playlist", playlist_summary (resolve_active_playlist p.group now))]

/-- Spec / C1: serialize with sorted keys, SHA-256, truncate to the first 8
hex characters. -/
def compute_digest (p : Player) (now : Now) : String :=
  String.mk ((sha256Hexdigest (utf8Encode (Json.dumps (spec_sync_structure p now)))).data.take 8)

/-! ## Sync protocol records (`scheduling/models.py`, `players/models.py`) -/

/-- `scheduling.models.SyncRequest` (the fields the handler writes;
`needs_sync` defaults to false and `server_sync_hash` to the empty string
at creation). -/
structure SyncRequest where
  player_id : Nat
  client_sync_hash : String
  app_version : String
  firmware_version : String
  battery_level : Option Nat
  storage_free_mb : Option Nat
  connection_type : String
  needs_sync : Bool
  server_sync_hash : String
  response_timestamp : Option DateTime

/-- `players.models.SyncLog`: the model that would hold per-sync transfer
statistics.  No sync endpoint ever writes it; `device_sync_confirmation`
(line 320) leaves recording `sync_stats` as a `TODO`. -/
structure SyncLog where
  player_id : Nat
  sync_id : String
  status : String
  assets_synced : Nat
  bytes_transferred : Nat
  duration_seconds : Option Nat
  sync_hash : String

/-- `scheduling.models.EmergencyMessage`; `group_ids`/`player_ids` model the
two targeting many-to-many relations. -/
structure EmergencyMessage where
  id : Nat
  title : String
  message : String
  priority : String
  display_duration : Nat
  background_color : String
  text_color : String
  font_size : Nat
  start_time : DateTime
  end_time : Option DateTime
  is_active : Bool
  group_ids : List Nat
  player_ids : List Nat

/-- `EmergencyMessage.to_sync_data`. -/
def EmergencyMessage.to_sync_data (m : EmergencyMessage) : Json :=
  .obj [("id", .str (toString m.id)),
        ("title", .str m.title),
        ("message", .str m.message),
        ("priority", .str m.priority),
        ("display_duration", .num (m.display_duration : Int)),
        ("background_color", .str m.background_color),
        ("text_color", .str m.text_color),
        ("font_size", .num (m.font_size : Int)),
        ("start_time", .str m.start_time.iso),
        ("end_time", match m.end_time with | some e => .str e.iso | none => .null)]

/-- `scheduling.models.SystemCommand` (fields the sync path reads). -/
structure SystemCommand where
  id : Nat
  command_type : String
  parameters : List (String × Json)
  status : String
  scheduled_at : DateTime
  player_ids : List Nat

/-- `SystemCommand.to_sync_data`. -/
def SystemCommand.to_sync_data (c : SystemCommand) : Json :=
  .obj [("id", .str (toString c.id)),
        ("command_type", .str c.command_type),
        ("parameters", .obj c.parameters),
        ("scheduled_at", .str c.scheduled_at.iso)]

/-- The persistent rows touched by the sync and registration endpoints.
Lists model tables in database order. -/
structure ServerState where
  players : List Player
  groups : List Group
  syncRequests : List SyncRequest
  syncLogs : List SyncLog
  emergencyMessages : List EmergencyMessage
  systemCommands : List SystemCommand

/-- The nested `device_health` object of a `check_server` payload. -/
structure HealthPayload where
  temperature_celsius : Option Int
  signal_strength : Option Int

/-- The parsed JSON payload of a `check_server` request; `none` models a key
absent from the payload (`data.get(...)` returning `None`). -/
structure CheckData where
  device_id : Option String
  last_sync_hash : Option String
  app_version : Option String
  firmware_version : Option String
  battery_level : Option Nat
  storage_free_mb : Option Nat
  connection_type : Option String
  device_health : Option HealthPayload

/-- A request body: unparseable JSON or a parsed payload. -/
inductive Body where
  | malformed : Body
  | parsed (data : CheckData) : Body

/-- The `JsonResponse` of `device_check_server`: `none` fields model keys
absent from the response dict. -/
structure CheckResponse where
  httpStatus : Nat
  status : String
  message : Option String
  server_timestamp : Option String
  device_registered : Option Bool
  needs_sync : Option Bool
  emergency_messages : Option (List Json)
  system_commands : Option (List Json)
  sync_data : Option Json
  new_sync_hash : Option String
  next_check_interval : Option Nat

/-- Python truthiness of `data.get(key)` for a string field
(`None` and the empty string are falsy). -/
def pyTruthy (o : Option String) : Bool :=
  match o with
  | some s => !(s == "")
  | none => false

/-- `Player.objects.get(device_id=...)`. -/
def findPlayer (ps : List Player) (did : String) : Option Player :=
  ps.find? (fun p => p.device_id == did)

/-- `player.save()`: replace the row with the same primary key. -/
def savePlayer (ps : List Player) (q : Player) : List Player :=
  ps.map (fun p => if p.id == q.id then q else p)

/-- `player.save(update_fields=['sync_fail_count'])` as performed by
`reset_sync_failures`: only that column is written. -/
def saveSyncFailCount (ps : List Player) (q : Player) : List Player :=
  ps.map (fun p => if p.id == q.id then { p with sync_fail_count := q.sync_fail_count } else p)

/-- `sync_request.save()` on the row just created: replace the last row. -/
def replaceLast {α : Type} (l : List α) (a : α) : List α :=
  match l with
  | [] => []
  | [_] => [a]
  | x :: xs => x :: replaceLast xs a

/-- Lines 55-62 of `device_check_server`: overwrite the player's version and
health fields from the payload (`data.get` defaults), mark it `online`. -/
def applyHealthUpdate (p : Player) (data : CheckData) : Player :=
  { p with
    app_version := data.app_version.getD "",
    firmware_version := data.firmware_version.getD "",
    battery_level := data.battery_level,
    storage_free_mb := data.storage_free_mb,
    temperature_celsius :=
      match data.device_health with
      | some h => h.temperature_celsius
      | none => none,
    signal_strength :=
      match data.device_health with
      | some h => h.signal_strength
      | none => none,
    connection_type := data.connection_type.getD "unknown",
    status := "online" }

/-- `get_active_emergency_messages`: active, already started, not ended, and
targeted at the player's group or at the player. -/
def get_active_emergency_messages (p : Player) (msgs : List EmergencyMessage)
    (now : Now) : List EmergencyMessage :=
  msgs.filter (fun m =>
    m.is_active &&
    decide (m.start_time.ts ≤ now.ts) &&
    (match m.end_time with | none => true | some e => decide (now.ts < e.ts)) &&
    (m.group_ids.contains p.group.id || m.player_ids.contains p.id))

/-- `get_pending_system_commands`: pending, due, targeted at the player. -/
def get_pending_system_commands (p : Player) (cmds : List SystemCommand)
    (now : Now) : List SystemCommand :=
  cmds.filter (fun c =>
    c.status == "pending" && decide (c.scheduled_at.ts ≤ now.ts) &&
    c.player_ids.contains p.id)

/-! ## Full sync payload (`generate_sync_data`, lines 185-266) -/

def two_digit (n : Nat) : String :=
  (if n < 10 then "0" else "") ++ toString n

/-- `time.strftime('%H:%M')` on a seconds-since-midnight value. -/
def timeHM (t : Nat) : String :=
  two_digit (t / 3600) ++ ":" ++ two_digit (t % 3600 / 60)

/-- Python `dict[k] = v`: overwrite in place if the key exists, else append. -/
def dictSet (base : List (String × Json)) (k : String) (v : Json) :
    List (String × Json) :=
  if base.any (fun p => p.1 == k) then
    base.map (fun p => if p.1 == k then (k, v) else p)
  else base ++ [(k, v)]

/-- Python `dict.update`. -/
def dictUpdate (base : List (String × Json)) :
    List (String × Json) → List (String × Json)
  | [] => base
  | (k, v) :: rest => dictUpdate (dictSet base k v) rest

/-- `PlaylistItem.to_sync_data`. -/
def PlaylistItem.to_sync_data (it : PlaylistItem) : Json :=
  .obj [("id", .num (it.id : Int)),
        ("asset_id", .str (toString it.asset.id)),
        ("duration", .num (it.effective_duration : Int)),
        ("zone", .str it.zone),
        ("order", .num (it.order : Int)),
        ("transition", .str it.transition_effect),
        ("fullscreen", .bool it.fullscreen),
        ("asset_ticker", .str it.asset_ticker),
        ("valid_from", match it.valid_from with | some d => .str d.iso | none => .null),
        ("valid_until", match it.valid_until with | some d => .str d.iso | none => .null)]

/-- `Playlist.to_sync_data` (items ordered by `order_by('order')`). -/
def Playlist.to_sync_data (pl : Playlist) : Json :=
  .obj [("id", .str (toString pl.id)),
        ("name", .str pl.name),
        ("layout", .str pl.layout_code),
        ("active", .bool true),
        ("ticker", .obj [("enabled", .bool pl.ticker_enabled),
                         ("text", .str pl.ticker_text),
                         ("speed", .num (pl.ticker_speed : Int)),
                         ("position", .str pl.ticker_position)]),
        ("shuffle", .bool pl.shuffle_enabled),
        ("repeat", .bool pl.repeat_enabled),
        ("items", .arr ((isort (fun i j => decide (i.order ≤ j.order)) pl.items).map
          PlaylistItem.to_sync_data))]

/-- The `playlist_data['schedule']` annotation (lines 225-230); callers
guarantee both times are present via `is_active_now`. -/
def scheduleSyncJson (sc : PlaylistSchedule) : Json :=
  .obj [("start_time", .str (timeHM (sc.start_time.getD 0))),
        ("end_time", .str (timeHM (sc.end_time.getD 0))),
        ("days_of_week", .arr (sc.days_of_week.map (fun d => .num (d : Int)))),
        ("priority", .num (sc.priority : Int))]

/-- `playlist_data['schedule'] = ...` on a dict value. -/
def jsonObjSet (j : Json) (k : String) (v : Json) : Json :=
  match j with
  | .obj kvs => .obj (dictSet kvs k v)
  | other => other

/-- Model default ordering `Meta.ordering = ['-priority', 'start_time']` of
`PlaylistSchedule` querysets (null times first, as SQL ascending order). -/
def schedMetaLe (s t : PlaylistSchedule) : Bool :=
  if s.priority == t.priority then
    match s.start_time, t.start_time with
    | none, _ => true
    | some _, none => false
    | some a, some b => decide (a ≤ b)
  else decide (t.priority < s.priority)

/-- One `asset_sync_object` (lines 236-264). -/
def assetSyncJson (a : Asset) : Json :=
  let md0 : List (String × Json) :=
    [("duration", match a.duration with | some d => .num (d : Int) | none => .null),
     ("resolution", .str a.resolution),
     ("original_name", .str a.original_name)]
  let md := if a.metadata.isEmpty then md0 else dictUpdate md0 a.metadata
  let base : List (String × Json) :=
    [("id", .str (toString a.id)),
     ("name", .str a.name),
     ("type", .str a.asset_type),
     ("checksum", .str (pyOrStr a.checksum "")),
     ("size_bytes", .num ((a.file_size.getD 0 : Nat) : Int)),
     ("metadata", .obj md)]
  let withUrl :=
    if a.file then base ++ [("url", .str a.download_url)]
    else if !(a.url == "") then base ++ [("url", .str a.url)]
    else base
  match a.thumbnail with
  | some t => .obj (withUrl ++ [("thumbnail_url", .str t)])
  | none => .obj withUrl

/-- `generate_sync_data` (lines 185-266): the full payload sent when
`needs_sync` is true.  Item order follows `PlaylistItem.Meta.ordering =
['zone', 'order']`; the schedule scan follows the schedules' default
ordering. -/
def generate_sync_data (p : Player) (now : Now) : Json :=
  let group := p.group
  let active :=
    match get_active_playlist_for_group group now with
    | none => group.default_playlist
    | some pl => some pl
  let config : Json :=
    .obj [("sync_interval", .num (group.sync_interval : Int)),
          ("resolution", .str p.effective_resolution),
          ("orientation", .str p.effective_orientation),
          ("audio_enabled", .bool group.audio_enabled),
          ("tv_control", .bool group.tv_control),
          ("screenshot_interval", .num (group.screenshot_interval : Int))]
  let playlists : List Json :=
    match active with
    | none => []
    | some pl =>
      let cands := isort schedMetaLe
        (group.schedules.filter (fun sc => sc.playlist.id == pl.id && sc.is_active))
      match cands.find? (fun sc => sc.is_active_now now) with
      | some sc => [jsonObjSet pl.to_sync_data "schedule" (scheduleSyncJson sc)]
      | none => [pl.to_sync_data]
  let assets : List Json :=
    match active with
    | none => []
    | some pl => (isort itemLe pl.items).map (fun it => assetSyncJson it.asset)
  .obj [("sync_id", .str ("sync_" ++ now.ymdhms)),
        ("sync_timestamp", .str now.iso),
        ("config_updates", config),
        ("playlists", .arr playlists),
        ("assets", .arr assets),
        ("deleted_assets", .arr [])]

/-! ## `device_check_server` (`scheduling/admin.py` lines 15-126)

The handler is embedded with an explicit failure model for persistence
writes: `fail k` means the k-th database write performed by the handler
(0-based, program order) raises, which the view's `except Exception` turns
into a generic 500 response.  There is no transaction in the view, so
writes already performed stay committed (Django autocommit).  The actual
handler is the no-failure instance `device_check_server`. -/

/-- The generic `except Exception` 500 response (lines 122-126). -/
def serverErrorResp : CheckResponse :=
  { httpStatus := 500, status := "error", message := some "Server error",
    server_timestamp := none, device_registered := none, needs_sync := none,
    emergency_messages := none, system_commands := none, sync_data := none,
    new_sync_hash := none, next_check_interval := none }

def device_check_serverF (fail : Nat → Bool) (st : ServerState) (now : Now)
    (body : Body) : CheckResponse × ServerState :=
  match body with
  | .malformed =>
    ({ httpStatus := 400, status := "error", message := some "Invalid JSON",
       server_timestamp := none, device_registered := none, needs_sync := none,
       emergency_messages := none, system_commands := none, sync_data := none,
       new_sync_hash := none, next_check_interval := none }, st)
  | .parsed data =>
    if !(pyTruthy data.device_id) then
      ({ httpStatus := 400, status := "error",
         message := some "device_id is required",
         server_timestamp := none, device_registered := none, needs_sync := none,
         emergency_messages := none, system_commands := none, sync_data := none,
         new_sync_hash := none, next_check_interval := none }, st)
    else
      match findPlayer st.players (data.device_id.getD "") with
      | none =>
        ({ httpStatus := 404, status := "device_not_registered",
           message := some "Device not found in system",
           server_timestamp := some now.iso, device_registered := none,
           needs_sync := none, emergency_messages := none,
           system_commands := none, sync_data := none, new_sync_hash := none,
           next_check_interval := none }, st)
      | some player =>
        -- write 0: SyncRequest.objects.create (lines 44-52)
        let sr : SyncRequest :=
          { player_id := player.id,
            client_sync_hash := data.last_sync_hash.getD "",
            app_version := data.app_version.getD "",
            firmware_version := data.firmware_version.getD "",
            battery_level := data.battery_level,
            storage_free_mb := data.storage_free_mb,
            connection_type := data.connection_type.getD "",
            needs_sync := false, server_sync_hash := "",
            response_timestamp := none }
        if fail 0 then (serverErrorResp, st) else
        let st0 := { st with syncRequests := st.syncRequests ++ [sr] }
        -- lines 55-62 in memory, write 1: player.save() (line 63)
        let p1 := applyHealthUpdate player data
        if fail 1 then (serverErrorResp, st0) else
        let st1 := { st0 with players := savePlayer st0.players p1 }
        let server_hash := calculate_player_sync_hash p1 now
        let client_hash := data.last_sync_hash.getD ""
        let needsSync := !(client_hash == server_hash)
        let emergency := get_active_emergency_messages p1 st1.emergencyMessages now
        let commands := get_pending_system_commands p1 st1.systemCommands now
        let respBase : CheckResponse :=
          { httpStatus := 200, status := "success",
            message := none,
            server_timestamp := some now.iso,
            device_registered := some true,
            needs_sync := some needsSync,
            emergency_messages :=
              if emergency.isEmpty then none
              else some (emergency.map EmergencyMessage.to_sync_data),
            system_commands :=
              if commands.isEmpty then none
              else some (commands.map SystemCommand.to_sync_data),
            sync_data := none, new_sync_hash := none,
            next_check_interval := none }
        if needsSync then
          let syncData := generate_sync_data p1 now
          let p2 := { p1 with last_sync_hash := server_hash,
                              last_sync := some now.toDateTime }
          let p3 := { p2 with sync_fail_count := 0 }
          -- write 2: reset_sync_failures -> save(update_fields=['sync_fail_count'])
          if fail 2 then (serverErrorResp, st1) else
          let st2 := { st1 with players := saveSyncFailCount st1.players p3 }
          -- write 3: player.save() (line 99)
          if fail 3 then (serverErrorResp, st2) else
          let st3 := { st2 with players := savePlayer st2.players p3 }
          let srF := { sr with needs_sync := true, server_sync_hash := server_hash,
                               response_timestamp := some now.toDateTime }
          -- write 4: sync_request.save() (line 112)
          if fail 4 then (serverErrorResp, st3) else
          let st4 := { st3 with syncRequests := replaceLast st3.syncRequests srF }
          ({ respBase with sync_data := some syncData,
                           new_sync_hash := some server_hash }, st4)
        else
          let srF := { sr with needs_sync := false, server_sync_hash := server_hash,
                               response_timestamp := some now.toDateTime }
          -- write 2: sync_request.save() (line 112)
          if fail 2 then (serverErrorResp, st1) else
          let st2 := { st1 with syncRequests := replaceLast st1.syncRequests srF }
          ({ respBase with next_check_interval := some p1.group.sync_interval }, st2)

/-- `device_check_server` as deployed: no persistence write fails. -/
def device_check_server (st : ServerState) (now : Now) (body : Body) :
    CheckResponse × ServerState :=
  device_check_serverF (fun _ => false) st now body

/-! ## `api_register_player` (`players/views.py` lines 337-425) -/

structure RegisterData where
  device_id : Option String
  name : Option String
  group_id : Option Nat
  app_version : Option String
  firmware_version : Option String

inductive RegisterBody where
  | malformed : RegisterBody
  | parsed (data : RegisterData) : RegisterBody

structure RegisterResponse where
  httpStatus : Nat
  status : String
  message : Option String
  player_device_id : Option String

def findGroupById (gs : List Group) (gid : Nat) : Option Group :=
  gs.find? (fun g => g.id == gid)

def findGroupByName (gs : List Group) (nm : String) : Option Group :=
  gs.find? (fun g => g.name == nm)

/-- The `Default Group` built by `get_or_create` when no `group_id` is given. -/
def defaultGroup (gid : Nat) : Group :=
  { id := gid, name := "Default Group", default_playlist := none,
    sync_interval := 300, resolution := "1920x1080",
    orientation := "landscape", audio_enabled := true, tv_control := false,
    screenshot_interval := 3600, default_timezone := "UTC", schedules := [] }

/-- `api_register_player`.  Note two source quirks kept here: the default for
`name` (`f'Player {device_id[:8]}'`) is evaluated eagerly, so a payload with
no `device_id` raises `TypeError` and returns the generic 500; and an
existing `device_id` is answered with a 400 "already exists" error.
`nextPlayerId`/`nextGroupId` model database autoincrement. -/
def api_register_player (st : ServerState) (nextPlayerId nextGroupId : Nat)
    (body : RegisterBody) : RegisterResponse × ServerState :=
  match body with
  | .malformed =>
    ({ httpStatus := 400, status := "error", message := some "Invalid JSON",
       player_device_id := none }, st)
  | .parsed data =>
    match data.device_id with
    | none =>
      ({ httpStatus := 500, status := "error", message := some "Server error",
         player_device_id := none }, st)
    | some did =>
      let nm := data.name.getD ("Player " ++ String.mk (did.data.take 8))
      if did == "" || !(did.length == 16) then
        ({ httpStatus := 400, status := "error",
           message := some "device_id must be exactly 16 hexadecimal characters",
           player_device_id := none }, st)
      else if st.players.any (fun p => p.device_id == did) then
        ({ httpStatus := 400, status := "error",
           message := some ("Player with device_id " ++ did ++ " already exists"),
           player_device_id := none }, st)
      else
        let groupResult : Option (Group × ServerState) :=
          match data.group_id with
          | some gid =>
            match findGroupById st.groups gid with
            | some g => some (g, st)
            | none => none
          | none =>
            match findGroupByName st.groups "Default Group" with
            | some g => some (g, st)
            | none =>
              let g := defaultGroup nextGroupId
              some (g, { st with groups := st.groups ++ [g] })
        match groupResult with
        | none =>
          ({ httpStatus := 400, status := "error",
             message := some "Group does not exist",
             player_device_id := none }, st)
        | some (g, st1) =>
          let player : Player :=
            { id := nextPlayerId, device_id := did, name := nm, group := g,
              status := "offline", last_sync := none, last_sync_hash := "",
              sync_fail_count := 0,
              app_version := data.app_version.getD "",
              firmware_version := data.firmware_version.getD "",
              battery_level := none, storage_free_mb := none,
              temperature_celsius := none, connection_type := "unknown",
              signal_strength := none, custom_resolution := "",
              custom_orientation := "", timezone := "UTC", location := "" }
          ({ httpStatus := 200, status := "success",
             message := some "Player registered successfully",
             player_device_id := some did },
           { st1 with players := st1.players ++ [player] })

/-! ## `device_sync_confirmation` (`scheduling/admin.py` lines 297-331) -/

/-- The `sync_stats` object of a confirmation payload. -/
structure SyncStatsData where
  assets_downloaded : Nat
  bytes_transferred : Nat
  duration_seconds : Nat

/-- A confirmation payload.  `sync_hash` is the device's self-reported hash
(`data.get('sync_hash')`); payloads without it are not modelled (storing
`None` in the non-null column would raise on save). -/
structure ConfirmData where
  device_id : Option String
  sync_hash : String
  sync_stats : Option SyncStatsData

inductive ConfirmBody where
  | malformed : ConfirmBody
  | parsed (data : ConfirmData) : ConfirmBody

structure ConfirmResponse where
  httpStatus : Nat
  status : String
  message : Option String

/-- `device_sync_confirmation`: re-stamp `last_sync`, store the reported hash
as-is, mark online, reset the failure counter.  `sync_stats` is read but not
persisted (the `TODO` at line 320); unknown devices surface as the generic
500 (the `Http404` of `get_object_or_404` is swallowed by
`except Exception`). -/
def device_sync_confirmation (st : ServerState) (now : Now)
    (body : ConfirmBody) : ConfirmResponse × ServerState :=
  match body with
  | .malformed =>
    ({ httpStatus := 500, status := "error", message := some "Server error" }, st)
  | .parsed data =>
    match findPlayer st.players (data.device_id.getD "") with
    | none =>
      ({ httpStatus := 500, status := "error", message := some "Server error" }, st)
    | some player =>
      let p1 := { player with last_sync_hash := data.sync_hash,
                              last_sync := some now.toDateTime,
                              status := "online" }
      let p2 := { p1 with sync_fail_count := 0 }
      -- reset_sync_failures: save(update_fields=['sync_fail_count'])
      let st1 := { st with players := saveSyncFailCount st.players p2 }
      -- player.save()
      let st2 := { st1 with players := savePlayer st1.players p2 }
      ({ httpStatus := 200, status := "success",
         message := some "Sync confirmation received" }, st2)

def last_sync_hash_max_length : Nat := 64

/-! ## Concrete instances for witnesses and counterexamples -/

def wGroup : Group :=
  ⟨1, "Default Group", none, 300, "1920x1080", "landscape", true, false, 3600,
   "UTC", []⟩

def wDid : String := "AABBCCDD00112233"

def wPlayer : Player :=
  ⟨1, wDid, "Lobby screen", wGroup, "offline", none, "", 2, "", "", none, none,
   none, "unknown", none, "", "", "UTC", ""⟩

def wNow : Now :=
  ⟨20260101, 4, 36000, 1767261600, "2026-01-01T10:00:00+00:00",
   "20260101_100000"⟩

def wState : ServerState := ⟨[wPlayer], [wGroup], [], [], [], []⟩

def wDataBase : CheckData :=
  ⟨some wDid, none, some "1.0.0", some "12", some 90, some 1000, some "wifi",
   some ⟨some 35, some (-60)⟩⟩

def wServerDigest : String :=
  calculate_player_sync_hash (applyHealthUpdate wPlayer wDataBase) wNow

def wDataC3 : CheckData := { wDataBase with last_sync_hash := some wServerDigest }

def wDataNoId : CheckData := { wDataBase with device_id := none }

def wDataUnknown : CheckData :=
  { wDataBase with device_id := some "FFFFFFFFFFFFFFFF" }

def wDataC9 : CheckData := { wDataBase with connection_type := none }

def wDataC6 : CheckData := { wDataBase with battery_level := some 55 }

def wRegData : RegisterData := ⟨some wDid, some "Duplicate", none, none, none⟩

def wConfirmData : ConfirmData := ⟨some wDid, "abcdef12", some ⟨3, 1000, 42⟩⟩

/-! ## Theorems -/

theorem mem_insertLe {α : Type} (le : α → α → Bool) (a x : α) (l : List α)
    (h : x ∈ insertLe le a l) : x = a ∨ x ∈ l := by
  induction l with
  | nil => simp [insertLe] at h; exact Or.inl h
  | cons b bs ih =>
    simp only [insertLe] at h
    by_cases hle : le a b = true
    · rw [if_pos hle] at h
      rcases List.mem_cons.mp h with h | h
      · exact Or.inl h
      · exact Or.inr h
    · rw [if_neg hle] at h
      rcases List.mem_cons.mp h with h | h
      · exact Or.inr (by simp [h])
      · rcases ih h with h | h
        · exact Or.inl h
        · exact Or.inr (by simp [h])

theorem mem_isort {α : Type} (le : α → α → Bool) (x : α) (l : List α)
    (h : x ∈ isort le l) : x ∈ l := by
  induction l with
  | nil => simp [isort] at h
  | cons a as ih =>
    simp only [isort] at h
    rcases mem_insertLe le a x _ h with h | h
    · simp [h]
    · exact List.mem_cons_of_mem _ (ih h)

theorem perm_insertLe {α : Type} (le : α → α → Bool) (a : α) (l : List α) :
    List.Perm (insertLe le a l) (a :: l) := by
  induction l with
  | nil => simp [insertLe]
  | cons b bs ih =>
    simp only [insertLe]
    by_cases hle : le a b = true
    · rw [if_pos hle]
    · rw [if_neg hle]
      exact (List.Perm.cons b ih).trans (List.Perm.swap a b bs)

theorem perm_isort {α : Type} (le : α → α → Bool) (l : List α) :
    List.Perm (isort le l) l := by
  induction l with
  | nil => simp [isort]
  | cons a as ih =>
    exact (perm_insertLe le a (isort le as)).trans (List.Perm.cons a ih)

theorem sorted_insertLe {α : Type} (le : α → α → Bool)
    (htot : ∀ x y, le x y = true ∨ le y x = true)
    (htrans : ∀ x y z, le x y = true → le y z = true → le x z = true)
    (a : α) (l : List α) (hl : l.Pairwise (fun x y => le x y = true)) :
    (insertLe le a l).Pairwise (fun x y => le x y = true) := by
  induction l with
  | nil => simp [insertLe]
  | cons b bs ih =>
    rcases List.pairwise_cons.mp hl with ⟨hb, hbs⟩
    simp only [insertLe]
    by_cases hle : le a b = true
    · rw [if_pos hle]
      refine List.pairwise_cons.mpr ⟨?_, hl⟩
      intro y hy
      rcases List.mem_cons.mp hy with rfl | hy
      · exact hle
      · exact htrans a b y hle (hb _ hy)
    · rw [if_neg hle]
      refine List.pairwise_cons.mpr ⟨?_, ih hbs⟩
      intro y hy
      rcases mem_insertLe le a y _ hy with heq | hy
      · rw [heq]
        rcases htot a b with h | h
        · exact absurd h hle
        · exact h
      · exact hb _ hy

theorem sorted_isort {α : Type} (le : α → α → Bool)
    (htot : ∀ x y, le x y = true ∨ le y x = true)
    (htrans : ∀ x y z, le x y = true → le y z = true → le x z = true)
    (l : List α) :
    (isort le l).Pairwise (fun x y => le x y = true) := by
  induction l with
  | nil => simp [isort]
  | cons a as ih => exact sorted_insertLe le htot htrans a (isort le as) ih

theorem isActiveNow_eq_passes (s : PlaylistSchedule) (now : Now)
    (h : s.is_active = true) :
    s.is_active_now now = specSchedulePasses s now := by
  unfold PlaylistSchedule.is_active_now specSchedulePasses
  rw [h]
  rcases s.start_time with _ | st <;> rcases s.end_time with _ | et <;>
    rcases s.start_date with _ | sd <;> rcases s.end_date with _ | ed <;>
    rw [Bool.eq_iff_iff] <;>
    simp [not_lt, and_assoc]

theorem scan_eq_find (now : Now) (l : List PlaylistSchedule) :
    scanSchedules now l =
      (l.find? (fun s => s.is_active_now now)).map (·.playlist) := by
  induction l with
  | nil => simp [scanSchedules]
  | cons s rest ih =>
    cases h : s.is_active_now now <;>
      simp [scanSchedules, List.find?_cons, h, ih]

theorem find_congr {α : Type} (f g : α → Bool) (l : List α)
    (h : ∀ x ∈ l, f x = g x) : l.find? f = l.find? g := by
  induction l with
  | nil => simp
  | cons a as ih =>
    have ha := h a (by simp)
    cases hg : g a
    · rw [List.find?_cons, List.find?_cons, ha, hg]
      exact ih fun x hx => h x (by simp [hx])
    · rw [List.find?_cons, List.find?_cons, ha, hg]

/-- On the group's `is_active`-filtered, ordered schedules, the code's
`is_active_now` agrees with the spec's four checks. -/
theorem get_active_eq_resolve (g : Group) (now : Now) :
    get_active_playlist_for_group g now = resolve_active_playlist g now := by
  unfold get_active_playlist_for_group resolve_active_playlist
  rw [scan_eq_find]
  rw [find_congr (fun s => s.is_active_now now) (fun s => specSchedulePasses s now)]
  · cases (orderSchedules (g.schedules.filter (·.is_active))).find?
        (fun s => specSchedulePasses s now) <;> simp
  · intro x hx
    have hxf := mem_isort _ _ _ hx
    have hact : x.is_active = true := (List.mem_filter.mp hxf).2
    exact isActiveNow_eq_passes x now hact

/-- The redundant second fallback in `calculate_player_sync_hash` (line 138)
changes nothing: `get_active_playlist_for_group` already falls back to the
default playlist. -/
theorem fallback_idem (g : Group) (now : Now) :
    (match get_active_playlist_for_group g now with
     | none => g.default_playlist
     | some pl => some pl) = get_active_playlist_for_group g now := by
  unfold get_active_playlist_for_group
  rcases hs : scanSchedules now (orderSchedules (g.schedules.filter (·.is_active))) with _ | p
  · cases g.default_playlist <;> simp
  · simp

theorem schedLe_total (s t : PlaylistSchedule) :
    schedLe s t = true ∨ schedLe t s = true := by
  unfold schedLe
  split_ifs with h1 h2 h3 <;>
    simp only [beq_iff_eq, decide_eq_true_eq] at * <;> omega

theorem schedLe_trans (s t u : PlaylistSchedule) (h1 : schedLe s t = true)
    (h2 : schedLe t u = true) : schedLe s u = true := by
  unfold schedLe at *
  split_ifs at * <;>
    simp only [beq_iff_eq, decide_eq_true_eq] at * <;> omega

theorem schedLe_spec (s t : PlaylistSchedule) (h : schedLe s t = true) :
    t.priority < s.priority ∨ (s.priority = t.priority ∧ t.id ≤ s.id) := by
  unfold schedLe at h
  split_ifs at h <;> simp only [beq_iff_eq, decide_eq_true_eq] at * <;> omega

/-- C2: for every group and time, the code's `get_active_playlist_for_group`
considers exactly the group's `is_active` schedules, ordered by
`(priority DESC, id DESC)`, and returns the playlist of the first schedule
passing the spec's date-range / weekday / time-of-day checks (with the
midnight-crossing rule, and a schedule missing either time never active),
falling back to the group's possibly-null default playlist. -/
theorem claim_C2_schedule_resolution (g : Group) (now : Now) :
    get_active_playlist_for_group g now = resolve_active_playlist g now ∧
    List.Perm (orderSchedules (g.schedules.filter (·.is_active)))
      (g.schedules.filter (·.is_active)) ∧
    (orderSchedules (g.schedules.filter (·.is_active))).Pairwise
      (fun s t => t.priority < s.priority ∨
        (s.priority = t.priority ∧ t.id ≤ s.id)) := by
  refine ⟨get_active_eq_resolve g now, perm_isort _ _, ?_⟩
  exact (sorted_isort schedLe schedLe_total schedLe_trans _).imp
    (fun h => schedLe_spec _ _ h)

theorem canonList_map_congr {α : Type} (f g : α → Json)
    (h : ∀ x, canonJson (f x) = canonJson (g x)) (l : List α) :
    canonList (l.map f) = canonList (l.map g) := by
  induction l with
  | nil => rfl
  | cons x xs ih => simp only [List.map_cons, canonList, h x, ih]

theorem canon_sync_eq (p : Player) (now : Now) :
    canonJson (syncHashJson p now) = canonJson (spec_sync_structure p now) := by
  unfold syncHashJson spec_sync_structure
  dsimp only
  rw [fallback_idem, get_active_eq_resolve]
  rcases h : resolve_active_playlist p.group now with _ | pl
  · rfl
  · have harr := canonList_map_congr assetSummary spec_asset_summary
      (fun it => rfl) (isort itemLe pl.items)
    have e1 : canonJson (Json.obj
        [("player_id", .str p.device_id),
         ("group_config",
           .obj [("sync_interval", .num (p.group.sync_interval : Int)),
                 ("resolution", .str p.effective_resolution),
                 ("orientation", .str p.effective_orientation),
                 ("audio_enabled", .bool p.group.audio_enabled),
                 ("tv_control", .bool p.group.tv_control)]),
         ("playlist", playlistSummary (some pl)),
         ("assets", .arr ((isort itemLe pl.items).map assetSummary))]) =
        Json.obj
        [("assets", .arr (canonList ((isort itemLe pl.items).map assetSummary))),
         ("group_config", group_display_config p),
         ("player_id", .str p.device_id),
         ("playlist", playlist_summary (some pl))] := rfl
    rw [e1, harr]
    rfl

theorem dumps_sync_eq (p : Player) (now : Now) :
    Json.dumps (syncHashJson p now) = Json.dumps (spec_sync_structure p now) :=
  congrArg dumpJson (canon_sync_eq p now)

/-- C1: for every registered device (and clock reading), the code's
`calculate_player_sync_hash` equals the spec's `compute_digest`: build the
canonical structure, serialize it as JSON with sorted keys, SHA-256 it, and
return exactly the first 8 hex characters. -/
theorem claim_C1_digest_refinement (p : Player) (now : Now) :
    calculate_player_sync_hash p now = compute_digest p now := by
  unfold calculate_player_sync_hash compute_digest
  rw [dumps_sync_eq]

theorem hexChar_mem (n : Nat) : hexChar n ∈ hexDigits := by
  unfold hexChar
  have h : n % 16 < 16 := Nat.mod_lt _ (by norm_num)
  set m := n % 16 with hm
  interval_cases m <;> decide

theorem byteHex_chars (b : Nat) (c : Char) (h : c ∈ byteHex b) : c ∈ hexDigits := by
  unfold byteHex at h
  rcases List.mem_cons.mp h with rfl | h
  · exact hexChar_mem _
  · rcases List.mem_cons.mp h with rfl | h
    · exact hexChar_mem _
    · simp at h

theorem length_byteHex_flatten (l : List Nat) :
    ((l.map byteHex).flatten).length = 2 * l.length := by
  induction l with
  | nil => simp
  | cons b bs ih =>
    simp [byteHex, ih]
    omega

theorem sha256Bytes_length (msg : List Nat) : (sha256Bytes msg).length = 32 := by
  unfold sha256Bytes
  set hv := sha256Words msg with hhv
  simp only [wordBytesBE, List.length_append, List.length_cons, List.length_nil]

theorem sha256Hexdigest_data_length (msg : List Nat) :
    (sha256Hexdigest msg).data.length = 64 := by
  show ((sha256Bytes msg).map byteHex).flatten.length = 64
  rw [length_byteHex_flatten, sha256Bytes_length]

theorem sha256Hexdigest_chars (msg : List Nat) (c : Char)
    (h : c ∈ (sha256Hexdigest msg).data) : c ∈ hexDigits := by
  have h2 : c ∈ ((sha256Bytes msg).map byteHex).flatten := h
  rcases List.mem_flatten.mp h2 with ⟨a, ha, hc⟩
  rcases List.mem_map.mp ha with ⟨b, _, rfl⟩
  exact byteHex_chars b c hc

theorem calculate_hash_length (p : Player) (now : Now) :
    (calculate_player_sync_hash p now).length = 8 := by
  show ((sha256Hexdigest
    (utf8Encode (Json.dumps (syncHashJson p now)))).data.take 8).length = 8
  rw [List.length_take, sha256Hexdigest_data_length]
  decide

theorem calculate_hash_chars (p : Player) (now : Now) (c : Char)
    (h : c ∈ (calculate_player_sync_hash p now).data) : c ∈ hexDigits := by
  unfold calculate_player_sync_hash at h
  have h2 : c ∈ (sha256Hexdigest
      (utf8Encode (Json.dumps (syncHashJson p now)))).data :=
    List.take_subset 8 _ h
  exact sha256Hexdigest_chars _ c h2

theorem calculate_hash_ne_empty (p : Player) (now : Now) :
    calculate_player_sync_hash p now ≠ "" := by
  intro h
  have h8 := calculate_hash_length p now
  rw [h] at h8
  exact absurd h8 (by decide)

theorem findPlayer_cons (r : Player) (rs : List Player) (did : String) :
    findPlayer (r :: rs) did =
      if r.device_id == did then some r else findPlayer rs did := by
  unfold findPlayer
  cases h : (r.device_id == did) <;> simp [List.find?, h]

theorem findPlayer_device_id (ps : List Player) (did : String) (p : Player)
    (h : findPlayer ps did = some p) : p.device_id = did := by
  have h2 := List.find?_some h
  simpa using h2

theorem findPlayer_savePlayer (ps : List Player) (did : String) (p q : Player)
    (hfind : findPlayer ps did = some p) (hid : q.id = p.id)
    (hdid : q.device_id = did) :
    findPlayer (savePlayer ps q) did = some q := by
  induction ps with
  | nil => simp [findPlayer] at hfind
  | cons r rs ih =>
    rw [findPlayer_cons] at hfind
    unfold savePlayer
    simp only [List.map_cons]
    show findPlayer ((if (r.id == q.id) = true then q else r) ::
      List.map (fun p => if (p.id == q.id) = true then q else p) rs) did = some q
    by_cases hr : (r.device_id == did) = true
    · rw [if_pos hr] at hfind
      have hrp : r = p := Option.some.inj hfind
      have hq : (r.id == q.id) = true := by rw [beq_iff_eq, hrp, hid]
      rw [if_pos hq, findPlayer_cons, if_pos (by rw [beq_iff_eq]; exact hdid)]
    · rw [if_neg hr] at hfind
      by_cases hq : (r.id == q.id) = true
      · rw [if_pos hq, findPlayer_cons, if_pos (by rw [beq_iff_eq]; exact hdid)]
      · rw [if_neg hq, findPlayer_cons, if_neg hr]
        exact ih hfind

theorem findPlayer_saveSyncFailCount (ps : List Player) (did : String)
    (p q : Player) (hfind : findPlayer ps did = some p) :
    findPlayer (saveSyncFailCount ps q) did =
      some (if (p.id == q.id) = true then
              { p with sync_fail_count := q.sync_fail_count }
            else p) := by
  induction ps with
  | nil => simp [findPlayer] at hfind
  | cons r rs ih =>
    rw [findPlayer_cons] at hfind
    unfold saveSyncFailCount
    simp only [List.map_cons]
    show findPlayer ((if (r.id == q.id) = true then
        { r with sync_fail_count := q.sync_fail_count } else r) ::
      List.map (fun p => if (p.id == q.id) = true then
        { p with sync_fail_count := q.sync_fail_count } else p) rs) did = _
    by_cases hr : (r.device_id == did) = true
    · rw [if_pos hr] at hfind
      have hrp : r = p := Option.some.inj hfind
      subst hrp
      by_cases hq : (r.id == q.id) = true
      · rw [if_pos hq, findPlayer_cons, if_pos hr]
      · rw [if_neg hq, findPlayer_cons, if_pos hr]
    · rw [if_neg hr] at hfind
      by_cases hq : (r.id == q.id) = true
      · rw [if_pos hq, findPlayer_cons, if_neg hr]
        exact ih hfind
      · rw [if_neg hq, findPlayer_cons, if_neg hr]
        exact ih hfind

/-- C3: a `check_server` request from a registered device whose presented
digest equals the freshly computed server digest gets `needs_sync = false`,
no `sync_data`, and `next_check_interval` equal to the group's
`sync_interval`; the stored digest and `last_sync` keep their prior values
(the health save rewrites the row with those fields untouched). -/
theorem claim_C3_idempotent_noop (st : ServerState) (now : Now) (data : CheckData)
    (did : String) (player : Player)
    (hdid : data.device_id = some did) (hne : did ≠ "")
    (hfind : findPlayer st.players did = some player)
    (hhash : data.last_sync_hash.getD "" =
      calculate_player_sync_hash (applyHealthUpdate player data) now) :
    (device_check_server st now (.parsed data)).1.needs_sync = some false ∧
    (device_check_server st now (.parsed data)).1.sync_data = none ∧
    (device_check_server st now (.parsed data)).1.next_check_interval =
      some player.group.sync_interval ∧
    findPlayer (device_check_server st now (.parsed data)).2.players did =
      some (applyHealthUpdate player data) ∧
    (applyHealthUpdate player data).last_sync_hash = player.last_sync_hash ∧
    (applyHealthUpdate player data).last_sync = player.last_sync := by
  have hdid2 : (did == "") = false := by simp [hne]
  have hppid : player.device_id = did := findPlayer_device_id _ _ _ hfind
  unfold device_check_server device_check_serverF
  simp only [hdid, Option.getD_some, pyTruthy, hdid2, Bool.not_false, if_true,
    Bool.not_true, Bool.false_eq_true, if_false, hfind]
  rw [← hhash]
  simp only [beq_self_eq_true, Bool.not_true, Bool.false_eq_true, if_false]
  refine ⟨by trivial, by trivial, by trivial, ?_, by trivial, by trivial⟩
  exact findPlayer_savePlayer _ _ _ _ hfind rfl hppid

/-- C4: a `check_server` request from a registered device presenting an
empty or missing digest always gets `needs_sync = true`, because the digest
comparison is string inequality and the server digest is never empty. -/
theorem claim_C4_bootstrap_sync (st : ServerState) (now : Now) (data : CheckData)
    (did : String) (player : Player)
    (hdid : data.device_id = some did) (hne : did ≠ "")
    (hfind : findPlayer st.players did = some player)
    (hempty : data.last_sync_hash = none ∨ data.last_sync_hash = some "") :
    (device_check_server st now (.parsed data)).1.needs_sync = some true := by
  have hdid2 : (did == "") = false := by simp [hne]
  have hc : data.last_sync_hash.getD "" = "" := by
    rcases hempty with h | h <;> simp [h]
  have hb : ("" == calculate_player_sync_hash
      (applyHealthUpdate player data) now) = false := by
    rw [beq_eq_false_iff_ne]
    exact fun e => calculate_hash_ne_empty (applyHealthUpdate player data) now e.symm
  unfold device_check_server device_check_serverF
  simp only [hdid, Option.getD_some, pyTruthy, hdid2, Bool.not_false, if_true,
    Bool.not_true, Bool.false_eq_true, if_false, hfind, hc, hb]

/-- C5: unparseable payloads, payloads without a `device_id`, and unknown
device identifiers are rejected with no state mutation; the unknown-device
case returns the distinguishable `device_not_registered` status, not the
generic `error`. -/
theorem claim_C5_invalid_requests (st : ServerState) (now : Now) :
    ((device_check_server st now .malformed).2 = st ∧
     (device_check_server st now .malformed).1.httpStatus = 400 ∧
     (device_check_server st now .malformed).1.status = "error") ∧
    (∀ data : CheckData, pyTruthy data.device_id = false →
        (device_check_server st now (.parsed data)).2 = st ∧
        (device_check_server st now (.parsed data)).1.httpStatus = 400 ∧
        (device_check_server st now (.parsed data)).1.status = "error") ∧
    (∀ (data : CheckData) (did : String), data.device_id = some did → did ≠ "" →
        findPlayer st.players did = none →
        (device_check_server st now (.parsed data)).2 = st ∧
        (device_check_server st now (.parsed data)).1.httpStatus = 404 ∧
        (device_check_server st now (.parsed data)).1.status =
          "device_not_registered" ∧
        (device_check_server st now (.parsed data)).1.status ≠ "error") := by
  refine ⟨⟨rfl, rfl, rfl⟩, ?_, ?_⟩
  · intro data h
    unfold device_check_server device_check_serverF
    simp only [h, Bool.not_false, if_true]
    exact ⟨by trivial, by trivial, by trivial⟩
  · intro data did hdid hne hnone
    have hdid2 : (did == "") = false := by simp [hne]
    unfold device_check_server device_check_serverF
    simp only [hdid, Option.getD_some, pyTruthy, hdid2, Bool.not_false, if_true,
      Bool.not_true, Bool.false_eq_true, if_false, hnone]
    exact ⟨by trivial, by trivial, by trivial, by decide⟩

theorem stored_after_needs_sync (ps : List Player) (did : String)
    (player p1 p3 : Player) (hfind : findPlayer ps did = some player)
    (h1id : p1.id = player.id) (h1did : p1.device_id = did)
    (h3id : p3.id = p1.id) (h3did : p3.device_id = did) :
    findPlayer (savePlayer (saveSyncFailCount (savePlayer ps p1) p3) p3) did =
      some p3 := by
  have hfind1 := findPlayer_savePlayer ps did player p1 hfind h1id h1did
  have hfind2 := findPlayer_saveSyncFailCount (savePlayer ps p1) did p1 p3 hfind1
  by_cases hq : (p1.id == p3.id) = true
  · rw [if_pos hq] at hfind2
    exact findPlayer_savePlayer _ did _ p3 hfind2 h3id h3did
  · rw [if_neg hq] at hfind2
    exact findPlayer_savePlayer _ did _ p3 hfind2 h3id h3did

/-- C9 (amended): on every `check_server` request from a registered device
the stored version and health fields are overwritten unconditionally from
the payload: a field absent from the payload resets battery, storage,
temperature and signal to null, the version fields to the empty string, and
the connection type to `'unknown'` (not to null); the device is marked
`online` before the sync decision is made. -/
theorem claim_C9_health_overwrite (st : ServerState) (now : Now) (data : CheckData)
    (did : String) (player : Player)
    (hdid : data.device_id = some did) (hne : did ≠ "")
    (hfind : findPlayer st.players did = some player) :
    (applyHealthUpdate player data).status = "online" ∧
    ((findPlayer (device_check_server st now (.parsed data)).2.players did).map
        (fun q => q.app_version)) = some (data.app_version.getD "") ∧
    ((findPlayer (device_check_server st now (.parsed data)).2.players did).map
        (fun q => q.firmware_version)) = some (data.firmware_version.getD "") ∧
    ((findPlayer (device_check_server st now (.parsed data)).2.players did).map
        (fun q => q.battery_level)) = some data.battery_level ∧
    ((findPlayer (device_check_server st now (.parsed data)).2.players did).map
        (fun q => q.storage_free_mb)) = some data.storage_free_mb ∧
    ((findPlayer (device_check_server st now (.parsed data)).2.players did).map
        (fun q => q.temperature_celsius)) =
      some (match data.device_health with
            | some h => h.temperature_celsius
            | none => none) ∧
    ((findPlayer (device_check_server st now (.parsed data)).2.players did).map
        (fun q => q.signal_strength)) =
      some (match data.device_health with
            | some h => h.signal_strength
            | none => none) ∧
    ((findPlayer (device_check_server st now (.parsed data)).2.players did).map
        (fun q => q.connection_type)) = some (data.connection_type.getD "unknown") ∧
    ((findPlayer (device_check_server st now (.parsed data)).2.players did).map
        (fun q => q.status)) = some "online" := by
  have hdid2 : (did == "") = false := by simp [hne]
  have hppid : player.device_id = did := findPlayer_device_id _ _ _ hfind
  have hfind1 : findPlayer (savePlayer st.players (applyHealthUpdate player data))
      did = some (applyHealthUpdate player data) :=
    findPlayer_savePlayer _ _ _ _ hfind rfl hppid
  unfold device_check_server device_check_serverF
  simp only [hdid, Option.getD_some, pyTruthy, hdid2, Bool.not_false, if_true,
    Bool.not_true, Bool.false_eq_true, if_false, hfind]
  by_cases hns : (data.last_sync_hash.getD "" ==
      calculate_player_sync_hash (applyHealthUpdate player data) now) = true
  · simp only [hns, Bool.not_true, Bool.false_eq_true, if_false, hfind1]
    exact ⟨by trivial, by trivial, by trivial, by trivial, by trivial,
      by trivial, by trivial, by trivial, by trivial⟩
  · simp only [eq_false_of_ne_true hns, Bool.not_false, if_true]
    have hfound := stored_after_needs_sync st.players did player
      (applyHealthUpdate player data)
      { { applyHealthUpdate player data with
            last_sync_hash :=
              calculate_player_sync_hash (applyHealthUpdate player data) now,
            last_sync := some now.toDateTime } with sync_fail_count := 0 }
      hfind rfl hppid rfl hppid
    rw [hfound]
    exact ⟨by trivial, by trivial, by trivial, by trivial, by trivial,
      by trivial, by trivial, by trivial, by trivial⟩

/-- C10: every digest from `calculate_player_sync_hash` is exactly 8
lowercase hexadecimal characters, so the value the `needs_sync` path stores
into `last_sync_hash` has length 8, within the column's 64-character
capacity. -/
theorem claim_C10_digest_shape :
    (∀ (p : Player) (now : Now),
        (calculate_player_sync_hash p now).length = 8 ∧
        (calculate_player_sync_hash p now).data.all
          (fun c => hexDigits.contains c) = true) ∧
    (∀ (st : ServerState) (now : Now) (data : CheckData) (did : String)
        (player : Player),
        data.device_id = some did → did ≠ "" →
        findPlayer st.players did = some player →
        data.last_sync_hash.getD "" ≠
          calculate_player_sync_hash (applyHealthUpdate player data) now →
        ((findPlayer (device_check_server st now (.parsed data)).2.players
            did).map (fun q => q.last_sync_hash.length)) = some 8) ∧
    8 ≤ last_sync_hash_max_length := by
  refine ⟨?_, ?_, by decide⟩
  · intro p now
    refine ⟨calculate_hash_length p now, ?_⟩
    rw [List.all_eq_true]
    intro c hc
    have hm := calculate_hash_chars p now c hc
    simpa using hm
  · intro st now data did player hdid hne hfind hns
    have hdid2 : (did == "") = false := by simp [hne]
    have hppid : player.device_id = did := findPlayer_device_id _ _ _ hfind
    have hb : (data.last_sync_hash.getD "" ==
        calculate_player_sync_hash (applyHealthUpdate player data) now) = false :=
      beq_eq_false_iff_ne.mpr hns
    unfold device_check_server device_check_serverF
    simp only [hdid, Option.getD_some, pyTruthy, hdid2, Bool.not_false, if_true,
      Bool.not_true, Bool.false_eq_true, if_false, hfind, hb]
    have hfound := stored_after_needs_sync st.players did player
      (applyHealthUpdate player data)
      { { applyHealthUpdate player data with
            last_sync_hash :=
              calculate_player_sync_hash (applyHealthUpdate player data) now,
            last_sync := some now.toDateTime } with sync_fail_count := 0 }
      hfind rfl hppid rfl hppid
    rw [hfound]
    simpa using calculate_hash_length (applyHealthUpdate player data) now

/-- C6 (amended): when a persistence write fails partway through
`device_check_server` (here: the `player.save()` at line 99 that persists
the new digest), the caller receives the generic 500 server error, but the
updates are not all-or-nothing: the SyncRequest creation, the health save
(line 63) and the failure-counter reset remain committed while the stored
digest and `last_sync` keep their prior values. -/
theorem claim_C6_nonatomic_writes (st : ServerState) (now : Now) (data : CheckData)
    (did : String) (player : Player)
    (hdid : data.device_id = some did) (hne : did ≠ "")
    (hfind : findPlayer st.players did = some player)
    (hns : data.last_sync_hash.getD "" ≠
      calculate_player_sync_hash (applyHealthUpdate player data) now) :
    (device_check_serverF (fun k => k == 3) st now (.parsed data)).1 =
      serverErrorResp ∧
    ((findPlayer (device_check_serverF (fun k => k == 3) st now
        (.parsed data)).2.players did).map (fun q => q.battery_level)) =
      some data.battery_level ∧
    ((findPlayer (device_check_serverF (fun k => k == 3) st now
        (.parsed data)).2.players did).map (fun q => q.sync_fail_count)) =
      some 0 ∧
    ((findPlayer (device_check_serverF (fun k => k == 3) st now
        (.parsed data)).2.players did).map (fun q => q.last_sync_hash)) =
      some player.last_sync_hash ∧
    ((findPlayer (device_check_serverF (fun k => k == 3) st now
        (.parsed data)).2.players did).map (fun q => q.last_sync)) =
      some player.last_sync ∧
    (device_check_serverF (fun k => k == 3) st now
        (.parsed data)).2.syncRequests.length = st.syncRequests.length + 1 := by
  have hdid2 : (did == "") = false := by simp [hne]
  have hppid : player.device_id = did := findPlayer_device_id _ _ _ hfind
  have hb : (data.last_sync_hash.getD "" ==
      calculate_player_sync_hash (applyHealthUpdate player data) now) = false :=
    beq_eq_false_iff_ne.mpr hns
  have hfind1 : findPlayer (savePlayer st.players (applyHealthUpdate player data))
      did = some (applyHealthUpdate player data) :=
    findPlayer_savePlayer _ _ _ _ hfind rfl hppid
  have f0 : ((0 : Nat) == 3) = false := rfl
  have f1 : ((1 : Nat) == 3) = false := rfl
  have f2 : ((2 : Nat) == 3) = false := rfl
  have f3 : ((3 : Nat) == 3) = true := rfl
  unfold device_check_serverF
  simp only [hdid, Option.getD_some, pyTruthy, hdid2, Bool.not_false, if_true,
    Bool.not_true, Bool.false_eq_true, if_false, hfind, hb, f0, f1, f2, f3]
  have hfind2 := findPlayer_saveSyncFailCount
    (savePlayer st.players (applyHealthUpdate player data)) did
    (applyHealthUpdate player data)
    { { applyHealthUpdate player data with
          last_sync_hash :=
            calculate_player_sync_hash (applyHealthUpdate player data) now,
          last_sync := some now.toDateTime } with sync_fail_count := 0 }
    hfind1
  rw [if_pos (by rw [beq_iff_eq])] at hfind2
  rw [hfind2]
  refine ⟨by trivial, by trivial, by trivial, by trivial, by trivial, ?_⟩
  simp

/-- C8 (amended): `device_sync_confirmation` re-stamps the device's
`last_sync`, resets the failure counter, marks it online, and stores the
self-reported hash as-is without re-verifying it against a server-computed
digest; the reported transfer statistics are accepted but not persisted
(no SyncLog or other record is written - the `TODO` at line 320). -/
theorem claim_C8_confirmation_effects (st : ServerState) (now : Now) (data : ConfirmData)
    (did : String) (player : Player)
    (hdid : data.device_id = some did)
    (hfind : findPlayer st.players did = some player) :
    (device_sync_confirmation st now (.parsed data)).1.status = "success" ∧
    ((findPlayer (device_sync_confirmation st now (.parsed data)).2.players
        did).map (fun q => q.last_sync)) = some (some now.toDateTime) ∧
    ((findPlayer (device_sync_confirmation st now (.parsed data)).2.players
        did).map (fun q => q.sync_fail_count)) = some 0 ∧
    ((findPlayer (device_sync_confirmation st now (.parsed data)).2.players
        did).map (fun q => q.last_sync_hash)) = some data.sync_hash ∧
    ((findPlayer (device_sync_confirmation st now (.parsed data)).2.players
        did).map (fun q => q.status)) = some "online" ∧
    (device_sync_confirmation st now (.parsed data)).2.syncLogs = st.syncLogs ∧
    (device_sync_confirmation st now (.parsed data)).2.syncRequests =
      st.syncRequests := by
  have hppid : player.device_id = did := findPlayer_device_id _ _ _ hfind
  unfold device_sync_confirmation
  simp only [hdid, Option.getD_some, hfind]
  have hfindA := findPlayer_saveSyncFailCount st.players did player
    { { player with
          last_sync_hash := data.sync_hash,
          last_sync := some now.toDateTime,
          status := "online" } with
        sync_fail_count := 0 }
    hfind
  rw [if_pos (by rw [beq_iff_eq])] at hfindA
  have hfindB := findPlayer_savePlayer _ did _
    { { player with
          last_sync_hash := data.sync_hash,
          last_sync := some now.toDateTime,
          status := "online" } with
        sync_fail_count := 0 }
    hfindA rfl hppid
  rw [hfindB]
  exact ⟨by trivial, by trivial, by trivial, by trivial, by trivial,
    by trivial, by trivial⟩

/-- C7 (amended): registration is not idempotent: a registration request
presenting a `device_id` that already belongs to a registered player is
rejected with an HTTP 400 `error` response ("already exists") and no state
change. -/
theorem claim_C7_reregistration_rejected (st : ServerState) (data : RegisterData) (did : String)
    (npid ngid : Nat) (hdid : data.device_id = some did)
    (hex : st.players.any (fun p => p.device_id == did) = true) :
    (api_register_player st npid ngid (.parsed data)).1.status = "error" ∧
    (api_register_player st npid ngid (.parsed data)).1.httpStatus = 400 ∧
    (api_register_player st npid ngid (.parsed data)).2 = st := by
  unfold api_register_player
  simp only [hdid]
  by_cases hlen : (did == "" || !(did.length == 16)) = true
  · simp only [hlen, if_true]
    exact ⟨by trivial, by trivial, by trivial⟩
  · simp only [eq_false_of_ne_true hlen, Bool.false_eq_true, if_false, hex,
      if_true]
    exact ⟨by trivial, by trivial, by trivial⟩

set_option maxRecDepth 1000000 in
theorem claim_C3_witness :
    (device_check_server wState wNow (.parsed wDataC3)).1.needs_sync =
      some false ∧
    (device_check_server wState wNow (.parsed wDataC3)).1.sync_data = none ∧
    (device_check_server wState wNow (.parsed wDataC3)).1.next_check_interval =
      some wPlayer.group.sync_interval ∧
    findPlayer (device_check_server wState wNow
        (.parsed wDataC3)).2.players wDid =
      some (applyHealthUpdate wPlayer wDataC3) ∧
    (applyHealthUpdate wPlayer wDataC3).last_sync_hash =
      wPlayer.last_sync_hash ∧
    (applyHealthUpdate wPlayer wDataC3).last_sync = wPlayer.last_sync :=
  claim_C3_idempotent_noop wState wNow wDataC3 wDid wPlayer rfl (by decide)
    rfl (by decide)

set_option maxRecDepth 1000000 in
theorem claim_C4_witness :
    (device_check_server wState wNow (.parsed wDataBase)).1.needs_sync =
      some true :=
  claim_C4_bootstrap_sync wState wNow wDataBase wDid wPlayer rfl (by decide)
    rfl (Or.inl rfl)

set_option maxRecDepth 1000000 in
theorem claim_C5_witness :
    ((device_check_server wState wNow .malformed).2 = wState ∧
     (device_check_server wState wNow .malformed).1.httpStatus = 400 ∧
     (device_check_server wState wNow .malformed).1.status = "error") ∧
    ((device_check_server wState wNow (.parsed wDataNoId)).2 = wState ∧
     (device_check_server wState wNow (.parsed wDataNoId)).1.httpStatus = 400 ∧
     (device_check_server wState wNow (.parsed wDataNoId)).1.status = "error") ∧
    ((device_check_server wState wNow (.parsed wDataUnknown)).2 = wState ∧
     (device_check_server wState wNow (.parsed wDataUnknown)).1.httpStatus = 404 ∧
     (device_check_server wState wNow (.parsed wDataUnknown)).1.status =
       "device_not_registered" ∧
     (device_check_server wState wNow (.parsed wDataUnknown)).1.status ≠
       "error") :=
  ⟨(claim_C5_invalid_requests wState wNow).1,
   (claim_C5_invalid_requests wState wNow).2.1 wDataNoId rfl,
   (claim_C5_invalid_requests wState wNow).2.2 wDataUnknown "FFFFFFFFFFFFFFFF"
     rfl (by decide) rfl⟩

set_option maxRecDepth 1000000 in
theorem claim_C9_witness :
    (applyHealthUpdate wPlayer wDataC9).status = "online" ∧
    ((findPlayer (device_check_server wState wNow
        (.parsed wDataC9)).2.players wDid).map
        (fun q => q.app_version)) = some (wDataC9.app_version.getD "") ∧
    ((findPlayer (device_check_server wState wNow
        (.parsed wDataC9)).2.players wDid).map
        (fun q => q.firmware_version)) = some (wDataC9.firmware_version.getD "") ∧
    ((findPlayer (device_check_server wState wNow
        (.parsed wDataC9)).2.players wDid).map
        (fun q => q.battery_level)) = some wDataC9.battery_level ∧
    ((findPlayer (device_check_server wState wNow
        (.parsed wDataC9)).2.players wDid).map
        (fun q => q.storage_free_mb)) = some wDataC9.storage_free_mb ∧
    ((findPlayer (device_check_server wState wNow
        (.parsed wDataC9)).2.players wDid).map
        (fun q => q.temperature_celsius)) =
      some (match wDataC9.device_health with
            | some h => h.temperature_celsius
            | none => none) ∧
    ((findPlayer (device_check_server wState wNow
        (.parsed wDataC9)).2.players wDid).map
        (fun q => q.signal_strength)) =
      some (match wDataC9.device_health with
            | some h => h.signal_strength
            | none => none) ∧
    ((findPlayer (device_check_server wState wNow
        (.parsed wDataC9)).2.players wDid).map
        (fun q => q.connection_type)) = some (wDataC9.connection_type.getD "unknown") ∧
    ((findPlayer (device_check_server wState wNow
        (.parsed wDataC9)).2.players wDid).map
        (fun q => q.status)) = some "online" :=
  claim_C9_health_overwrite wState wNow wDataC9 wDid wPlayer rfl (by decide) rfl

set_option maxRecDepth 1000000 in
/-- C9 as stated is false at this input: a payload without `connection_type`
leaves the stored value at `'unknown'`, not at null or the empty string. -/
theorem claim_C9_counterexample :
    ((findPlayer (device_check_server wState wNow
        (.parsed wDataC9)).2.players wDid).map
        (fun q => q.connection_type)) = some "unknown" ∧
    ("unknown" : String) ≠ "" := by
  constructor
  · decide
  · decide

set_option maxRecDepth 1000000 in
theorem claim_C10_witness :
    (calculate_player_sync_hash wPlayer wNow).length = 8 ∧
    (calculate_player_sync_hash wPlayer wNow).data.all
      (fun c => hexDigits.contains c) = true ∧
    ((findPlayer (device_check_server wState wNow
        (.parsed wDataBase)).2.players wDid).map
        (fun q => q.last_sync_hash.length)) = some 8 ∧
    8 ≤ last_sync_hash_max_length :=
  ⟨(claim_C10_digest_shape.1 wPlayer wNow).1,
   (claim_C10_digest_shape.1 wPlayer wNow).2,
   claim_C10_digest_shape.2.1 wState wNow wDataBase wDid wPlayer rfl
     (by decide) rfl (by decide),
   claim_C10_digest_shape.2.2⟩

set_option maxRecDepth 1000000 in
theorem claim_C6_witness :
    (device_check_serverF (fun k => k == 3) wState wNow (.parsed wDataC6)).1 =
      serverErrorResp ∧
    ((findPlayer (device_check_serverF (fun k => k == 3) wState wNow
        (.parsed wDataC6)).2.players wDid).map (fun q => q.battery_level)) =
      some wDataC6.battery_level ∧
    ((findPlayer (device_check_serverF (fun k => k == 3) wState wNow
        (.parsed wDataC6)).2.players wDid).map (fun q => q.sync_fail_count)) =
      some 0 ∧
    ((findPlayer (device_check_serverF (fun k => k == 3) wState wNow
        (.parsed wDataC6)).2.players wDid).map (fun q => q.last_sync_hash)) =
      some wPlayer.last_sync_hash ∧
    ((findPlayer (device_check_serverF (fun k => k == 3) wState wNow
        (.parsed wDataC6)).2.players wDid).map (fun q => q.last_sync)) =
      some wPlayer.last_sync ∧
    (device_check_serverF (fun k => k == 3) wState wNow
        (.parsed wDataC6)).2.syncRequests.length =
      wState.syncRequests.length + 1 :=
  claim_C6_nonatomic_writes wState wNow wDataC6 wDid wPlayer rfl (by decide) rfl
    (by decide)

set_option maxRecDepth 1000000 in
/-- C6 as stated is false at this input: with the digest-persisting save
failing, the response is the generic 500 but the committed row already
carries the new battery level while `last_sync_hash` still holds its prior
(empty) value - the no-failure run of the same request stores a non-empty
digest, so health and digest were not updated all-or-nothing. -/
theorem claim_C6_counterexample :
    (device_check_serverF (fun k => k == 3) wState wNow
        (.parsed wDataC6)).1.httpStatus = 500 ∧
    (device_check_serverF (fun k => k == 3) wState wNow
        (.parsed wDataC6)).1.status = "error" ∧
    ((findPlayer (device_check_serverF (fun k => k == 3) wState wNow
        (.parsed wDataC6)).2.players wDid).map (fun q => q.battery_level)) =
      some (some 55) ∧
    wPlayer.battery_level = none ∧
    ((findPlayer (device_check_serverF (fun k => k == 3) wState wNow
        (.parsed wDataC6)).2.players wDid).map (fun q => q.last_sync_hash)) =
      some "" ∧
    ((findPlayer (device_check_server wState wNow
        (.parsed wDataC6)).2.players wDid).map (fun q => q.last_sync_hash)) ≠
      some "" := by
  refine ⟨by decide, by decide, by decide, by decide, by decide, by decide⟩

/-- C7 as stated is false at this input: re-registering an existing
`device_id` is answered with an HTTP 400 `error` response, not accepted. -/
theorem claim_C7_counterexample :
    (api_register_player wState 2 2 (.parsed wRegData)).1.status = "error" ∧
    (api_register_player wState 2 2 (.parsed wRegData)).1.httpStatus = 400 ∧
    (api_register_player wState 2 2 (.parsed wRegData)).2.players.length =
      wState.players.length := by
  refine ⟨by decide, by decide, by decide⟩

theorem claim_C7_witness :
    (api_register_player wState 2 2 (.parsed wRegData)).1.status = "error" ∧
    (api_register_player wState 2 2 (.parsed wRegData)).1.httpStatus = 400 ∧
    (api_register_player wState 2 2 (.parsed wRegData)).2 = wState :=
  claim_C7_reregistration_rejected wState wRegData wDid 2 2 rfl (by decide)

/-- C8 as stated is false at this input: a confirmation carrying
`sync_stats` succeeds but nothing is persisted for the statistics - the
SyncLog table and the SyncRequest table are left empty. -/
theorem claim_C8_counterexample :
    (wConfirmData.sync_stats.map (fun s => s.bytes_transferred)) = some 1000 ∧
    (device_sync_confirmation wState wNow (.parsed wConfirmData)).1.status =
      "success" ∧
    (device_sync_confirmation wState wNow (.parsed wConfirmData)).2.syncLogs =
      ([] : List SyncLog) ∧
    (device_sync_confirmation wState wNow
        (.parsed wConfirmData)).2.syncRequests = ([] : List SyncRequest) :=
  ⟨rfl, rfl, rfl, rfl⟩

theorem claim_C8_witness :
    (device_sync_confirmation wState wNow (.parsed wConfirmData)).1.status =
      "success" ∧
    ((findPlayer (device_sync_confirmation wState wNow
        (.parsed wConfirmData)).2.players wDid).map (fun q => q.last_sync)) =
      some (some wNow.toDateTime) ∧
    ((findPlayer (device_sync_confirmation wState wNow
        (.parsed wConfirmData)).2.players wDid).map
        (fun q => q.sync_fail_count)) = some 0 ∧
    ((findPlayer (device_sync_confirmation wState wNow
        (.parsed wConfirmData)).2.players wDid).map
        (fun q => q.last_sync_hash)) = some wConfirmData.sync_hash ∧
    ((findPlayer (device_sync_confirmation wState wNow
        (.parsed wConfirmData)).2.players wDid).map (fun q => q.status)) =
      some "online" ∧
    (device_sync_confirmation wState wNow (.parsed wConfirmData)).2.syncLogs =
      wState.syncLogs ∧
    (device_sync_confirmation wState wNow
        (.parsed wConfirmData)).2.syncRequests = wState.syncRequests :=
  claim_C8_confirmation_effects wState wNow wConfirmData wDid wPlayer rfl rfl

end DigSignature
